import Mathlib

/-!
Shallow embedding of the two C++ diagnostic programs
`test-mem-leak-read.cpp` and `test-mem-leak-write.cpp`.

Shared code (identical in both files): the RSS sampler
`get_current_rss_mb`, which opens `/proc/self/stat`, extracts 24
whitespace-separated tokens (23 into `std::string` temporaries, the 24th
into `long rss`), asserts that the third token (`state`) is non-empty,
and returns `rss * (page_size / 1024) / 1024`.

Modelling choices:
* The stat stream is `Option (List String)`: `none` when the file cannot
  be opened, otherwise the whitespace-separated tokens of its content.
* `operator>>` into `long` is `extractLong`: optional single sign
  followed by the maximal digit prefix; on a parse failure with a live
  stream C++11 stores 0 (modelled by `Option.getD _ 0`).
* If the stream fails to open, every extraction fails, `state` stays
  empty and `assert(!state.empty())` aborts the process: `RssResult.aborted`.
* If the stream opens but holds fewer than 24 tokens (and a non-empty
  third token), the extraction into `rss` never stores a value, so the
  function returns a value computed from an uninitialized `long`:
  `RssResult.undef`.
* `double` arithmetic in the source is exact here: `rss * page_size_kb`
  is an integer far below 2^53, and dividing such a double by 1024 and
  converting the result back to `long` truncates toward zero, which is
  `Int.tdiv _ 1024`.
-/

namespace MemLeak

/-- Number of iterations in the main loop (both variants). -/
def NUM_ITERATIONS : Nat := 50

/-- Maximal digit prefix of a character list (the digits consumed by
`operator>>` into an integer after the optional sign). -/
def takeDigits : List Char → List Char
  | [] => []
  | c :: cs => if c.isDigit then c :: takeDigits cs else []

/-- Decimal value of a digit list. -/
def digitsToNat (ds : List Char) : Nat :=
  ds.foldl (fun acc c => acc * 10 + (c.toNat - 48)) 0

/-- Semantics of `istream >> (long&)` on one whitespace-delimited token:
optional single sign, then a non-empty maximal digit prefix; `none`
when no digit follows (the extraction fails). Overflow is not modelled
(all values in this program are far below `LONG_MAX`). -/
def extractLong (s : String) : Option Int :=
  let cs := s.toList
  let c0 := cs.headD ' '
  let rest := if c0 = '-' ∨ c0 = '+' then cs.tail else cs
  let ds := takeDigits rest
  if ds = [] then none
  else if c0 = '-' then some (-(digitsToNat ds : Int))
  else some ((digitsToNat ds : Nat) : Int)

/-- Outcome of one `get_current_rss_mb` call. -/
inductive RssResult where
  /-- `assert(!state.empty())` failed: the process aborts. -/
  | aborted
  /-- the returned value is computed from an uninitialized `long`. -/
  | undef
  /-- the call returns normally with this value (in MB). -/
  | ok (mb : Int)
deriving Repr, DecidableEq

/-- Embedding of `get_current_rss_mb` (identical in both source files).
`statSource` is the tokenized content of `/proc/self/stat`, or `none`
when the stream cannot be opened; `pageSize` is `sysconf(_SC_PAGE_SIZE)`. -/
def get_current_rss_mb (statSource : Option (List String)) (pageSize : Int) :
    RssResult :=
  match statSource with
  | none =>
      -- every extraction fails on the unopened stream, `state` stays "",
      -- and `assert(!state.empty())` aborts
      RssResult.aborted
  | some toks =>
      -- `state` is the third extracted token
      if (toks.getD 2 "").isEmpty then RssResult.aborted
      else if toks.length < 24 then
        -- the stream ran out before `rss` was stored: `long rss` stays
        -- uninitialized and the computed return value is indeterminate
        RssResult.undef
      else
        -- `rss` is the 24th token (index 23); a failed numeric parse on a
        -- live stream stores 0 (C++11)
        let rss : Int := (extractLong (toks.getD 23 "")).getD 0
        let page_size_kb : Int := pageSize.tdiv 1024
        RssResult.ok ((rss * page_size_kb).tdiv 1024)

/-- Environment a run executes in: the stat-file content seen by the k-th
sampler call (call 0 is the baseline before the loop, call i+1 the one in
iteration i), the platform page size, and — only reachable through the
`RssResult.undef` path — an oracle for the indeterminate value an
uninitialized `long` read would produce at the k-th call. -/
structure Env where
  statAt : Nat → Option (List String)
  pageSize : Int
  indet : Nat → Int

/-- Result of the k-th sampler call in environment `env`. -/
def sampleMb (env : Env) (k : Nat) : RssResult :=
  get_current_rss_mb (env.statAt k) env.pageSize

/-- Value the caller receives from the k-th sampler call. The `aborted`
branch is junk: a run never consults it (the whole run is `aborted`). -/
def sampleVal (env : Env) (k : Nat) : Int :=
  match sampleMb env k with
  | RssResult.ok v => v
  | RssResult.undef => env.indet k
  | RssResult.aborted => 0

/-- Whether some sampler call of the run (baseline plus one per iteration)
hits the failing assert, killing the process. -/
def samplerAborts (env : Env) : Bool :=
  (List.range (NUM_ITERATIONS + 1)).any fun k =>
    decide (sampleMb env k = RssResult.aborted)

/-- A token that is a non-empty all-digit string. -/
def digitToken (s : String) : Bool :=
  !s.toList.isEmpty && s.toList.all Char.isDigit

/-- A healthy stat source: openable, at least 24 tokens, non-empty `state`
token, and a numeric (unsigned) `rss` token. -/
def GoodStatB (o : Option (List String)) : Bool :=
  match o with
  | none => false
  | some toks =>
      !(toks.getD 2 "").isEmpty && decide (24 ≤ toks.length) &&
        digitToken (toks.getD 23 "")

theorem takeDigits_of_all (cs : List Char) (h : cs.all Char.isDigit = true) :
    takeDigits cs = cs := by
  induction cs with
  | nil => rfl
  | cons c cs ih =>
      simp only [List.all_cons, Bool.and_eq_true] at h
      simp [takeDigits, h.1, ih h.2]

theorem ne_minus_of_isDigit {c : Char} (h : c.isDigit = true) : ¬(c = '-') := by
  intro he
  subst he
  exact absurd h (by decide)

theorem ne_plus_of_isDigit {c : Char} (h : c.isDigit = true) : ¬(c = '+') := by
  intro he
  subst he
  exact absurd h (by decide)

/-- On a non-empty all-digit token, the `long` extraction succeeds and
yields the token's decimal value. -/
theorem extractLong_of_digitToken (s : String) (h : digitToken s = true) :
    extractLong s = some ((digitsToNat s.toList : Nat) : Int) := by
  simp only [digitToken, Bool.and_eq_true, Bool.not_eq_eq_eq_not,
    Bool.not_true, String.toList] at h ⊢
  obtain ⟨hne, hall⟩ := h
  cases hcs : s.data with
  | nil => rw [hcs] at hne; simp at hne
  | cons c cs =>
      rw [hcs] at hall
      have hcd : c.isDigit = true := by
        simp only [List.all_cons, Bool.and_eq_true] at hall
        exact hall.1
      have h2 : takeDigits (c :: cs) = c :: cs := takeDigits_of_all _ hall
      have hsign : ¬(c = '-' ∨ c = '+') := by
        rintro (hm | hp)
        · exact ne_minus_of_isDigit hcd hm
        · exact ne_plus_of_isDigit hcd hp
      simp only [extractLong, String.toList, hcs, List.headD_cons]
      rw [if_neg hsign, h2, if_neg (List.cons_ne_nil c cs),
        if_neg (ne_minus_of_isDigit hcd)]

/-- On a healthy stat source, the sampler returns normally and its value
is (rss token at index 23) * (pageSize / 1024) / 1024, all divisions
truncating. -/
theorem rss_of_goodStat (toks : List String) (page : Int)
    (h : GoodStatB (some toks) = true) :
    get_current_rss_mb (some toks) page =
      RssResult.ok
        (((digitsToNat (toks.getD 23 "").toList : Int) * page.tdiv 1024).tdiv
          1024) := by
  simp only [GoodStatB, Bool.and_eq_true, Bool.not_eq_eq_eq_not, Bool.not_true,
    decide_eq_true_eq] at h
  obtain ⟨⟨hstate, hlen⟩, hdig⟩ := h
  simp only [get_current_rss_mb, hstate, extractLong_of_digitToken _ hdig,
    Bool.false_eq_true, if_false, Option.getD_some]
  rw [if_neg (by omega)]

/-- Result of running a whole phase of the program: `aborted` when a
sampler call hit the failing assert, otherwise the completed observable
output. -/
inductive RunResult (α : Type) where
  | aborted
  | completed (val : α)
deriving Repr, DecidableEq, Inhabited

namespace MemRead

/-- Total size of the temporary file written by `create_mock_file` (50 MB),
from `test-mem-leak-read.cpp`. -/
def ARBITRARY_FILE_SIZE : Nat := 50 * 1024 * 1024

/-- Amount of data read by `read_file` (30 MB). -/
def READ_SIZE : Nat := 30 * 1024 * 1024

/-- Embedding of `read_file` from `test-mem-leak-read.cpp`. The file
system is abstracted to the size of the file at `file_path` (`none` when
it cannot be opened). Returns (whether the error message was printed,
number of bytes `file.read(data_buffer.data(), READ_SIZE)` places in the
buffer, namely `min READ_SIZE size`). -/
def read_file (fileSize : Option Nat) : Bool × Nat :=
  match fileSize with
  | none => (true, 0)
  | some sz => (false, min READ_SIZE sz)

/-- Observable output of one iteration of the loop in `trigger_mem`
(read variant): the printed index `i+1`, whether `read_file` printed its
error, how many bytes it read, the channel target address and how many
channels were created, and the printed RSS numbers. -/
structure Iter where
  printedIndex : Nat
  errorPrinted : Bool
  bytesRead : Nat
  address : String
  channelsCreated : Nat
  currentRss : Int
  printedDelta : Int
deriving Repr, DecidableEq, Inhabited

/-- Observable output of a completed `trigger_mem` call (read variant). -/
structure Run where
  initialRss : Int
  iters : List Iter
deriving Repr, DecidableEq, Inhabited

/-- One iteration of the loop body of `trigger_mem` (read variant):
spawn/join the `read_file` worker thread, create one gRPC channel to
`"localhost:" + std::to_string(4000 + i)`, then sample RSS and compute
the printed delta from the baseline. -/
def readIterAt (env : Env) (fileSize : Option Nat) (initial : Int) (i : Nat) :
    Iter :=
  let r := read_file fileSize
  let cur := sampleVal env (i + 1)
  { printedIndex := i + 1, errorPrinted := r.1, bytesRead := r.2,
    address := "localhost:" ++ toString (4000 + i), channelsCreated := 1,
    currentRss := cur, printedDelta := cur - initial }

/-- Embedding of `trigger_mem` (read variant): baseline sample, then the
fixed-count loop. The run is `aborted` when any sampler call hits the
failing assert. -/
def trigger_mem (env : Env) (fileSize : Option Nat) : RunResult Run :=
  if samplerAborts env then RunResult.aborted
  else
    let initial := sampleVal env 0
    RunResult.completed
      { initialRss := initial,
        iters := (List.range NUM_ITERATIONS).map (readIterAt env fileSize initial) }

/-- Embedding of `main` (read variant): `create_mock_file` writes a
50 MB file when the directory is writable (`mockCreated`), `trigger_mem`
runs, the mock file is removed (a failure only prints a warning), and 0
is returned. -/
def main (env : Env) (mockCreated : Bool) : RunResult Int :=
  let fileSize : Option Nat :=
    if mockCreated then some ARBITRARY_FILE_SIZE else none
  match trigger_mem env fileSize with
  | RunResult.aborted => RunResult.aborted
  | RunResult.completed _ => RunResult.completed 0

end MemRead

namespace MemWrite

/-- Amount of data written by `write_file` (30 MB), from
`test-mem-leak-write.cpp`. -/
def WRITE_SIZE : Nat := 30 * 1024 * 1024

/-- Embedding of `write_file` from `test-mem-leak-write.cpp`. The file
system is abstracted to the content of the scratch file as a byte list
(`none` = the file does not exist); `writable` says whether the
`ofstream` open succeeds. On success the file is created/truncated and
the value-initialized `std::vector<char>` buffer — `WRITE_SIZE` zero
bytes — is written. Returns (whether the error message was printed, the
file state afterwards). -/
def write_file (writable : Bool) (fs : Option (List Nat)) :
    Bool × Option (List Nat) :=
  if writable then (false, some (List.replicate WRITE_SIZE 0))
  else (true, fs)

/-- Observable output of one iteration of the loop in `trigger_mem`
(write variant), including the scratch-file state after the
`std::remove` and after the `write_file` worker thread joins. -/
structure Iter where
  printedIndex : Nat
  fsAfterRemove : Option (List Nat)
  errorPrinted : Bool
  fsAfter : Option (List Nat)
  address : String
  channelsCreated : Nat
  currentRss : Int
  printedDelta : Int
deriving Repr, DecidableEq, Inhabited

/-- Observable output of a completed `trigger_mem` call (write variant). -/
structure Run where
  initialRss : Int
  iters : List Iter
deriving Repr, DecidableEq, Inhabited

/-- One iteration of the loop body of `trigger_mem` (write variant):
`std::remove(file_path)` deletes the scratch file, the `write_file`
worker thread runs and is joined, one gRPC channel targets
`"localhost:" + std::to_string(4000 + i)`, then RSS is sampled. Returns
the iteration's observable record and the scratch-file state it leaves
behind. -/
def writeIterAt (env : Env) (writable : Bool) (initial : Int) (i : Nat)
    (fs : Option (List Nat)) : Iter × Option (List Nat) :=
  let afterRemove : Option (List Nat) := none
  let w := write_file writable afterRemove
  let cur := sampleVal env (i + 1)
  ({ printedIndex := i + 1, fsAfterRemove := afterRemove, errorPrinted := w.1,
     fsAfter := w.2, address := "localhost:" ++ toString (4000 + i),
     channelsCreated := 1, currentRss := cur, printedDelta := cur - initial },
   w.2)

/-- The loop of `trigger_mem` (write variant), threading the scratch-file
state through the iterations whose indices are listed. -/
def writeIters (env : Env) (writable : Bool) (initial : Int) :
    List Nat → Option (List Nat) → List Iter
  | [], _ => []
  | i :: rest, fs =>
    let step := writeIterAt env writable initial i fs
    step.1 :: writeIters env writable initial rest step.2

/-- Embedding of `trigger_mem` (write variant). -/
def trigger_mem (env : Env) (writable : Bool) (fs0 : Option (List Nat)) :
    RunResult Run :=
  if samplerAborts env then RunResult.aborted
  else
    let initial := sampleVal env 0
    RunResult.completed
      { initialRss := initial,
        iters := writeIters env writable initial (List.range NUM_ITERATIONS) fs0 }

/-- Embedding of `main` (write variant): run `trigger_mem`, return 0. -/
def main (env : Env) (writable : Bool) (fs0 : Option (List Nat)) :
    RunResult Int :=
  match trigger_mem env writable fs0 with
  | RunResult.aborted => RunResult.aborted
  | RunResult.completed _ => RunResult.completed 0

theorem writeIters_eq_map (env : Env) (w : Bool) (init : Int) (l : List Nat)
    (fs : Option (List Nat)) :
    writeIters env w init l fs =
      l.map (fun i => (writeIterAt env w init i none).1) := by
  induction l generalizing fs with
  | nil => rfl
  | cons i rest ih =>
      simp only [writeIters, List.map_cons, ih]
      rfl

end MemWrite

/-- A healthy 24-token `/proc/self/stat` line used as concrete input:
the `state` token (index 2) is `"R"` and the `rss` token (index 23) is
`"2048"` pages. -/
def statToksW : List String :=
  ["1234", "(prog)", "R", "1", "1", "1", "0", "-1", "4194304", "100", "0",
   "0", "0", "10", "5", "0", "0", "20", "0", "1", "0", "100", "1000000",
   "2048"]

/-- Concrete environment for witnesses: every sampler call sees
`statToksW` and the page size is 4096 bytes. -/
def envW : Env :=
  { statAt := fun _ => some statToksW, pageSize := 4096, indet := fun _ => 0 }

/-- Concrete 26-token stat line whose fields at indices 23 and 24 differ:
index 23 holds `"123"`, index 24 holds `"124"`. -/
def exToks : List String :=
  ["1234", "(prog)", "R", "1", "1", "1", "0", "-1", "4194304", "100", "0",
   "0", "0", "10", "5", "0", "0", "20", "0", "1", "0", "100", "1000000",
   "123", "124", "0"]

theorem samplerAborts_false_of_good (env : Env)
    (hg : ∀ k, k ≤ NUM_ITERATIONS → GoodStatB (env.statAt k) = true) :
    samplerAborts env = false := by
  apply Bool.eq_false_iff.mpr
  intro hany
  rw [samplerAborts, List.any_eq_true] at hany
  obtain ⟨k, hk, hp⟩ := hany
  rw [List.mem_range] at hk
  rw [decide_eq_true_eq] at hp
  have h := hg k (by omega)
  cases hst : env.statAt k with
  | none => rw [hst] at h; simp [GoodStatB] at h
  | some toks =>
      rw [hst] at h
      rw [sampleMb, hst, rss_of_goodStat toks env.pageSize h] at hp
      exact absurd hp (by simp)

theorem sampleVal_of_good (env : Env) (k : Nat)
    (h : GoodStatB (env.statAt k) = true) :
    ∃ n : Nat,
      sampleVal env k = ((n : Int) * env.pageSize.tdiv 1024).tdiv 1024 := by
  cases hst : env.statAt k with
  | none => rw [hst] at h; simp [GoodStatB] at h
  | some toks =>
      rw [hst] at h
      refine ⟨digitsToNat (toks.getD 23 "").toList, ?_⟩
      simp [sampleVal, sampleMb, hst, rss_of_goodStat toks env.pageSize h]

theorem read_trigger_completed (env : Env) (fsz : Option Nat)
    (h : samplerAborts env = false) :
    MemRead.trigger_mem env fsz =
      RunResult.completed
        { initialRss := sampleVal env 0,
          iters := (List.range NUM_ITERATIONS).map
            (MemRead.readIterAt env fsz (sampleVal env 0)) } := by
  simp only [MemRead.trigger_mem, h, Bool.false_eq_true, if_false]

theorem write_trigger_completed (env : Env) (w : Bool)
    (fs0 : Option (List Nat)) (h : samplerAborts env = false) :
    MemWrite.trigger_mem env w fs0 =
      RunResult.completed
        { initialRss := sampleVal env 0,
          iters := MemWrite.writeIters env w (sampleVal env 0)
            (List.range NUM_ITERATIONS) fs0 } := by
  simp only [MemWrite.trigger_mem, h, Bool.false_eq_true, if_false]

/-- C1 (amended): for every call of `get_current_rss_mb` whose stat line
has at least 24 whitespace-separated fields and a non-empty third field,
the resident page count used to compute the result is the
whitespace-separated field at fixed ordinal position 23 (0-indexed) —
that is, the 24th field — of the single process-status line it reads. -/
theorem C1_rss_field_is_index_23 (toks : List String) (page : Int)
    (hstate : (toks.getD 2 "").isEmpty = false) (hlen : 24 ≤ toks.length) :
    get_current_rss_mb (some toks) page =
      RssResult.ok
        (((extractLong (toks.getD 23 "")).getD 0 * page.tdiv 1024).tdiv
          1024) := by
  simp only [get_current_rss_mb, hstate, Bool.false_eq_true, if_false]
  rw [if_neg (by omega)]

theorem C1_rss_field_is_index_23_w :
    (statToksW.getD 2 "").isEmpty = false ∧ 24 ≤ statToksW.length ∧
    get_current_rss_mb (some statToksW) 4096 =
      RssResult.ok
        (((extractLong (statToksW.getD 23 "")).getD 0 *
          (4096 : Int).tdiv 1024).tdiv 1024) :=
  ⟨by decide, by decide,
    C1_rss_field_is_index_23 statToksW 4096 (by decide) (by decide)⟩

/-- C1 fails as stated: on a concrete stat line whose fields at
0-indexed positions 23 and 24 differ ("123" vs "124"), the sampler's
result with a 1 MB page size is 123 MB — computed from the field at
position 23 — whereas computing it from the field at position 24, as the
claim states, would give 124 MB. -/
theorem C1_counterexample :
    get_current_rss_mb (some exToks) (1024 * 1024) = RssResult.ok 123 ∧
    RssResult.ok
        (((extractLong (exToks.getD 24 "")).getD 0 *
          ((1024 * 1024 : Int).tdiv 1024)).tdiv 1024) = RssResult.ok 124 ∧
    (123 : Int) ≠ 124 :=
  ⟨by decide, by decide, by decide⟩

/-- C2: when the process-status source cannot be opened, every stream
extraction fails, `state` stays empty, and `assert(!state.empty())`
fails: the call aborts the process instead of returning 0 silently as
the claim (and the function's own doc comment, "or 0.0 if unable to
read") describes. -/
theorem C2_unopenable_source_aborts :
    get_current_rss_mb none 4096 = RssResult.aborted := rfl

/-- C5: for every call with an openable, healthy process-status source
(at least 24 fields, non-empty state field, numeric rss field),
`get_current_rss_mb` returns the resident page count multiplied by the
platform page size in KB, divided by 1024 (all divisions truncating):
resident memory in whole megabytes. -/
theorem C5_rss_mb_formula (toks : List String) (page : Int)
    (h : GoodStatB (some toks) = true) :
    get_current_rss_mb (some toks) page =
      RssResult.ok
        (((digitsToNat (toks.getD 23 "").toList : Int) *
          page.tdiv 1024).tdiv 1024) :=
  rss_of_goodStat toks page h

theorem C5_rss_mb_formula_w :
    GoodStatB (some statToksW) = true ∧
    get_current_rss_mb (some statToksW) 4096 = RssResult.ok 8 :=
  ⟨by decide, (C5_rss_mb_formula statToksW 4096 (by decide)).trans (by decide)⟩

theorem getD_map_range {α : Type} (d : α) (N i : Nat) (f : Nat → α)
    (hi : i < N) : ((List.range N).map f).getD i d = f i := by
  rw [List.getD_eq_getElem _ _ (by simpa using hi)]
  rw [List.getElem_map, List.getElem_range]

/-- C3: whenever every sampler call returns (the assert never fires),
the driver loop of either variant executes exactly
`NUM_ITERATIONS` = 50 iterations with no early exit, and `main` then
finishes with exit code 0, regardless of the RSS values sampled and of
the state of the file system. -/
theorem C3_fifty_iterations_exit_zero (env₁ env₂ : Env) (mock w : Bool)
    (fs0 : Option (List Nat))
    (h1 : samplerAborts env₁ = false) (h2 : samplerAborts env₂ = false) :
    (∃ r, MemRead.trigger_mem env₁
        (if mock then some MemRead.ARBITRARY_FILE_SIZE else none) =
          RunResult.completed r ∧ r.iters.length = NUM_ITERATIONS) ∧
    MemRead.main env₁ mock = RunResult.completed 0 ∧
    (∃ r, MemWrite.trigger_mem env₂ w fs0 = RunResult.completed r ∧
      r.iters.length = NUM_ITERATIONS) ∧
    MemWrite.main env₂ w fs0 = RunResult.completed 0 ∧
    NUM_ITERATIONS = 50 := by
  have hr1 := read_trigger_completed env₁
    (if mock then some MemRead.ARBITRARY_FILE_SIZE else none) h1
  have hr2 := write_trigger_completed env₂ w fs0 h2
  refine ⟨⟨_, hr1, by simp⟩, ?_, ⟨_, hr2, ?_⟩, ?_, rfl⟩
  · simp only [MemRead.main, hr1]
  · simp only [MemWrite.writeIters_eq_map, List.length_map, List.length_range]
  · simp only [MemWrite.main, hr2]

theorem C3_fifty_iterations_exit_zero_w :
    samplerAborts envW = false ∧
    ((∃ r, MemRead.trigger_mem envW
        (if true then some MemRead.ARBITRARY_FILE_SIZE else none) =
          RunResult.completed r ∧ r.iters.length = NUM_ITERATIONS) ∧
     MemRead.main envW true = RunResult.completed 0 ∧
     (∃ r, MemWrite.trigger_mem envW true none = RunResult.completed r ∧
       r.iters.length = NUM_ITERATIONS) ∧
     MemWrite.main envW true none = RunResult.completed 0 ∧
     NUM_ITERATIONS = 50) :=
  ⟨by decide,
    C3_fifty_iterations_exit_zero envW envW true true none (by decide)
      (by decide)⟩

theorem sampleVal_nonneg_of_good (env : Env) (k : Nat)
    (h : GoodStatB (env.statAt k) = true) (hp : 0 ≤ env.pageSize) :
    0 ≤ sampleVal env k := by
  obtain ⟨n, hn⟩ := sampleVal_of_good env k h
  rw [hn]
  exact Int.tdiv_nonneg
    (mul_nonneg (Int.natCast_nonneg n) (Int.tdiv_nonneg hp (by norm_num)))
    (by norm_num)

/-- C4: when every sampler call sees a healthy stat line and the page
size is non-negative, every iteration of the loop — in both the read
variant and the write variant — prints a non-negative current RSS, and
the printed delta equals the current RSS minus the baseline
`initial_rss` sampled once before the loop. -/
theorem C4_rss_nonneg_delta_from_baseline (env₁ env₂ : Env)
    (fsz : Option Nat) (w : Bool) (fs0 : Option (List Nat))
    (hg₁ : ∀ k, k ≤ NUM_ITERATIONS → GoodStatB (env₁.statAt k) = true)
    (hp₁ : 0 ≤ env₁.pageSize)
    (hg₂ : ∀ k, k ≤ NUM_ITERATIONS → GoodStatB (env₂.statAt k) = true)
    (hp₂ : 0 ≤ env₂.pageSize) :
    (∃ r, MemRead.trigger_mem env₁ fsz = RunResult.completed r ∧
      r.initialRss = sampleVal env₁ 0 ∧
      r.iters.length = NUM_ITERATIONS ∧
      ∀ rec ∈ r.iters, 0 ≤ rec.currentRss ∧
        rec.printedDelta = rec.currentRss - r.initialRss) ∧
    (∃ r, MemWrite.trigger_mem env₂ w fs0 = RunResult.completed r ∧
      r.initialRss = sampleVal env₂ 0 ∧
      r.iters.length = NUM_ITERATIONS ∧
      ∀ rec ∈ r.iters, 0 ≤ rec.currentRss ∧
        rec.printedDelta = rec.currentRss - r.initialRss) := by
  have h1 := samplerAborts_false_of_good env₁ hg₁
  have h2 := samplerAborts_false_of_good env₂ hg₂
  constructor
  · refine ⟨_, read_trigger_completed env₁ fsz h1, rfl, by simp, ?_⟩
    intro rec hrec
    simp only [List.mem_map, List.mem_range] at hrec
    obtain ⟨i, hi, hrec⟩ := hrec
    subst hrec
    exact ⟨sampleVal_nonneg_of_good env₁ (i + 1) (hg₁ (i + 1) (by omega)) hp₁,
      rfl⟩
  · refine ⟨_, write_trigger_completed env₂ w fs0 h2, rfl,
      by simp [MemWrite.writeIters_eq_map], ?_⟩
    intro rec hrec
    simp only [MemWrite.writeIters_eq_map, List.mem_map, List.mem_range]
      at hrec
    obtain ⟨i, hi, hrec⟩ := hrec
    subst hrec
    exact ⟨sampleVal_nonneg_of_good env₂ (i + 1) (hg₂ (i + 1) (by omega)) hp₂,
      rfl⟩

theorem C4_rss_nonneg_delta_from_baseline_w :
    (∀ k, k ≤ NUM_ITERATIONS → GoodStatB (envW.statAt k) = true) ∧
    (0 : Int) ≤ envW.pageSize ∧
    ((∃ r, MemRead.trigger_mem envW (some MemRead.ARBITRARY_FILE_SIZE) =
        RunResult.completed r ∧
      r.initialRss = sampleVal envW 0 ∧
      r.iters.length = NUM_ITERATIONS ∧
      ∀ rec ∈ r.iters, 0 ≤ rec.currentRss ∧
        rec.printedDelta = rec.currentRss - r.initialRss) ∧
     (∃ r, MemWrite.trigger_mem envW true none = RunResult.completed r ∧
      r.initialRss = sampleVal envW 0 ∧
      r.iters.length = NUM_ITERATIONS ∧
      ∀ rec ∈ r.iters, 0 ≤ rec.currentRss ∧
        rec.printedDelta = rec.currentRss - r.initialRss)) :=
  ⟨by decide, by decide,
    C4_rss_nonneg_delta_from_baseline envW envW
      (some MemRead.ARBITRARY_FILE_SIZE) true none (by decide) (by decide)
      (by decide) (by decide)⟩

/-- C6: in the read variant, when the fixture file exists with size at
least `READ_SIZE` = 30 MB, `read_file` prints no error and reads exactly
`READ_SIZE` bytes into its buffer, and does so in every iteration of a
non-aborting run. -/
theorem C6_read_fills_buffer (env : Env) (sz : Nat)
    (hsz : MemRead.READ_SIZE ≤ sz) (h : samplerAborts env = false) :
    MemRead.read_file (some sz) = (false, MemRead.READ_SIZE) ∧
    MemRead.READ_SIZE = 30 * 1024 * 1024 ∧
    ∃ r, MemRead.trigger_mem env (some sz) = RunResult.completed r ∧
      r.iters.length = NUM_ITERATIONS ∧
      ∀ rec ∈ r.iters,
        rec.errorPrinted = false ∧ rec.bytesRead = MemRead.READ_SIZE := by
  have hrf : MemRead.read_file (some sz) = (false, MemRead.READ_SIZE) := by
    simp [MemRead.read_file, Nat.min_eq_left hsz]
  refine ⟨hrf, rfl, _, read_trigger_completed env (some sz) h, by simp, ?_⟩
  intro rec hrec
  simp only [List.mem_map, List.mem_range] at hrec
  obtain ⟨i, hi, hrec⟩ := hrec
  subst hrec
  constructor
  · simp [MemRead.readIterAt, hrf]
  · simp [MemRead.readIterAt, hrf]

theorem C6_read_fills_buffer_w :
    MemRead.READ_SIZE ≤ MemRead.ARBITRARY_FILE_SIZE ∧
    samplerAborts envW = false ∧
    (MemRead.read_file (some MemRead.ARBITRARY_FILE_SIZE) =
        (false, MemRead.READ_SIZE) ∧
     MemRead.READ_SIZE = 30 * 1024 * 1024 ∧
     ∃ r, MemRead.trigger_mem envW (some MemRead.ARBITRARY_FILE_SIZE) =
        RunResult.completed r ∧
      r.iters.length = NUM_ITERATIONS ∧
      ∀ rec ∈ r.iters,
        rec.errorPrinted = false ∧ rec.bytesRead = MemRead.READ_SIZE) :=
  ⟨by decide, by decide,
    C6_read_fills_buffer envW MemRead.ARBITRARY_FILE_SIZE (by decide)
      (by decide)⟩

/-- C7: in the write variant with a writable scratch directory, the
target path is deleted (`std::remove`) before each iteration's write,
and after each iteration the scratch file exists with size exactly
`WRITE_SIZE` = 30 MB. -/
theorem C7_scratch_deleted_then_recreated (env : Env)
    (fs0 : Option (List Nat)) (h : samplerAborts env = false) :
    ∃ r, MemWrite.trigger_mem env true fs0 = RunResult.completed r ∧
      r.iters.length = NUM_ITERATIONS ∧
      ∀ rec ∈ r.iters, rec.fsAfterRemove = none ∧
        ∃ l, rec.fsAfter = some l ∧ l.length = MemWrite.WRITE_SIZE ∧
          MemWrite.WRITE_SIZE = 30 * 1024 * 1024 := by
  refine ⟨_, write_trigger_completed env true fs0 h, ?_, ?_⟩
  · simp [MemWrite.writeIters_eq_map]
  · intro rec hrec
    simp only [MemWrite.writeIters_eq_map, List.mem_map, List.mem_range]
      at hrec
    obtain ⟨i, hi, hrec⟩ := hrec
    subst hrec
    exact ⟨rfl, List.replicate MemWrite.WRITE_SIZE 0, rfl, by simp, rfl⟩

theorem C7_scratch_deleted_then_recreated_w :
    samplerAborts envW = false ∧
    (∃ r, MemWrite.trigger_mem envW true none = RunResult.completed r ∧
      r.iters.length = NUM_ITERATIONS ∧
      ∀ rec ∈ r.iters, rec.fsAfterRemove = none ∧
        ∃ l, rec.fsAfter = some l ∧ l.length = MemWrite.WRITE_SIZE ∧
          MemWrite.WRITE_SIZE = 30 * 1024 * 1024) :=
  ⟨by decide, C7_scratch_deleted_then_recreated envW none (by decide)⟩

/-- C8: in both variants, iteration i (0-indexed, i < 50) of a
non-aborting run targets the address obtained by concatenating the fixed
hostname prefix "localhost:" with the decimal rendering of 4000 + i, and
constructs exactly one client channel handle for it. -/
theorem C8_channel_address_per_iteration (env₁ env₂ : Env)
    (fsz : Option Nat) (w : Bool) (fs0 : Option (List Nat))
    (h1 : samplerAborts env₁ = false) (h2 : samplerAborts env₂ = false) :
    ∃ r1 r2,
      MemRead.trigger_mem env₁ fsz = RunResult.completed r1 ∧
      MemWrite.trigger_mem env₂ w fs0 = RunResult.completed r2 ∧
      r1.iters.length = NUM_ITERATIONS ∧
      r2.iters.length = NUM_ITERATIONS ∧
      ∀ i, i < NUM_ITERATIONS →
        (r1.iters.getD i default).address =
            "localhost:" ++ toString (4000 + i) ∧
        (r1.iters.getD i default).channelsCreated = 1 ∧
        (r2.iters.getD i default).address =
            "localhost:" ++ toString (4000 + i) ∧
        (r2.iters.getD i default).channelsCreated = 1 := by
  refine ⟨_, _, read_trigger_completed env₁ fsz h1,
    write_trigger_completed env₂ w fs0 h2, by simp,
    by simp [MemWrite.writeIters_eq_map], ?_⟩
  intro i hi
  have hg1 : ((List.range NUM_ITERATIONS).map
        (MemRead.readIterAt env₁ fsz (sampleVal env₁ 0))).getD i default =
      MemRead.readIterAt env₁ fsz (sampleVal env₁ 0) i :=
    getD_map_range default NUM_ITERATIONS i _ hi
  have hg2 : (MemWrite.writeIters env₂ w (sampleVal env₂ 0)
        (List.range NUM_ITERATIONS) fs0).getD i default =
      (MemWrite.writeIterAt env₂ w (sampleVal env₂ 0) i none).1 := by
    rw [MemWrite.writeIters_eq_map]
    exact getD_map_range default NUM_ITERATIONS i _ hi
  rw [hg1, hg2]
  exact ⟨rfl, rfl, rfl, rfl⟩

theorem C8_channel_address_per_iteration_w :
    samplerAborts envW = false ∧
    (∃ r1 r2,
      MemRead.trigger_mem envW (some MemRead.ARBITRARY_FILE_SIZE) =
          RunResult.completed r1 ∧
      MemWrite.trigger_mem envW true none = RunResult.completed r2 ∧
      r1.iters.length = NUM_ITERATIONS ∧
      r2.iters.length = NUM_ITERATIONS ∧
      ∀ i, i < NUM_ITERATIONS →
        (r1.iters.getD i default).address =
            "localhost:" ++ toString (4000 + i) ∧
        (r1.iters.getD i default).channelsCreated = 1 ∧
        (r2.iters.getD i default).address =
            "localhost:" ++ toString (4000 + i) ∧
        (r2.iters.getD i default).channelsCreated = 1) :=
  ⟨by decide,
    C8_channel_address_per_iteration envW envW
      (some MemRead.ARBITRARY_FILE_SIZE) true none (by decide) (by decide)⟩

/-- C9: in the read variant with a missing or unreadable fixture file,
`read_file` prints its error message and reads nothing into the buffer,
and every iteration of a non-aborting run still proceeds to the channel
workload (one channel at the usual address) and to the RSS sample. -/
theorem C9_missing_file_degraded_not_fatal (env : Env)
    (h : samplerAborts env = false) :
    MemRead.read_file none = (true, 0) ∧
    ∃ r, MemRead.trigger_mem env none = RunResult.completed r ∧
      r.iters.length = NUM_ITERATIONS ∧
      ∀ rec ∈ r.iters, rec.errorPrinted = true ∧ rec.bytesRead = 0 ∧
        rec.channelsCreated = 1 ∧
        rec.address =
          "localhost:" ++ toString (4000 + (rec.printedIndex - 1)) ∧
        rec.currentRss = sampleVal env rec.printedIndex := by
  refine ⟨rfl, _, read_trigger_completed env none h, by simp, ?_⟩
  intro rec hrec
  simp only [List.mem_map, List.mem_range] at hrec
  obtain ⟨i, hi, hrec⟩ := hrec
  subst hrec
  refine ⟨rfl, rfl, rfl, ?_, rfl⟩
  simp [MemRead.readIterAt]

theorem C9_missing_file_degraded_not_fatal_w :
    samplerAborts envW = false ∧
    (MemRead.read_file none = (true, 0) ∧
     ∃ r, MemRead.trigger_mem envW none = RunResult.completed r ∧
      r.iters.length = NUM_ITERATIONS ∧
      ∀ rec ∈ r.iters, rec.errorPrinted = true ∧ rec.bytesRead = 0 ∧
        rec.channelsCreated = 1 ∧
        rec.address =
          "localhost:" ++ toString (4000 + (rec.printedIndex - 1)) ∧
        rec.currentRss = sampleVal envW rec.printedIndex) :=
  ⟨by decide, C9_missing_file_degraded_not_fatal envW (by decide)⟩

/-- C10: in the write variant, the buffer written by `write_file` is
value-initialized, so after every iteration of a non-aborting run with a
writable scratch directory the scratch file consists of exactly
`WRITE_SIZE` = 30 MB of zero bytes. -/
theorem C10_scratch_file_all_zero_bytes (env : Env)
    (fs0 : Option (List Nat)) (h : samplerAborts env = false) :
    ∃ r, MemWrite.trigger_mem env true fs0 = RunResult.completed r ∧
      ∀ rec ∈ r.iters,
        rec.fsAfter = some (List.replicate MemWrite.WRITE_SIZE 0) ∧
        (List.replicate MemWrite.WRITE_SIZE (0 : Nat)).length =
          30 * 1024 * 1024 ∧
        ∀ b ∈ List.replicate MemWrite.WRITE_SIZE (0 : Nat), b = 0 := by
  refine ⟨_, write_trigger_completed env true fs0 h, ?_⟩
  intro rec hrec
  simp only [MemWrite.writeIters_eq_map, List.mem_map, List.mem_range] at hrec
  obtain ⟨i, hi, hrec⟩ := hrec
  subst hrec
  refine ⟨rfl, ?_, fun b hb => List.eq_of_mem_replicate hb⟩
  rw [List.length_replicate]
  rfl

theorem C10_scratch_file_all_zero_bytes_w :
    samplerAborts envW = false ∧
    (∃ r, MemWrite.trigger_mem envW true none = RunResult.completed r ∧
      ∀ rec ∈ r.iters,
        rec.fsAfter = some (List.replicate MemWrite.WRITE_SIZE 0) ∧
        (List.replicate MemWrite.WRITE_SIZE (0 : Nat)).length =
          30 * 1024 * 1024 ∧
        ∀ b ∈ List.replicate MemWrite.WRITE_SIZE (0 : Nat), b = 0) :=
  ⟨by decide, C10_scratch_file_all_zero_bytes envW none (by decide)⟩

end MemLeak
